import Mathlib

/-!
Shallow embedding of the publish pipeline of `src/solution.py` (the final
refactored code at lines 246-269 and the helper `upload_file_to_raycast` at
lines 280-286), together with a spec-modelled recording-session state machine
and action registry (those two components have no code under src, only the
specification describes them).

Python values appearing in the config dictionary are modelled by `PyVal`
(either Python None or a string); the config dictionary itself is an
association list.  The external world (the outcome of `build_extension`, the
filesystem queried by `os.path.exists` and `open`, and the HTTP response of
`requests.post`) is a record `Env` of oracles.  A call of `publish_extension`
is modelled as a pure function of the config and the environment, returning
the outcome (value returned or exception raised), the list of pipeline stages
that actually ran in order, the lines printed, the upload response if one was
obtained, and the final state of the config dictionary.
-/

namespace Cap

/-- A Python value stored in the config dictionary: None or a string. -/
inductive PyVal where
  | vnone
  | vstr (s : String)
deriving DecidableEq, Repr

/-- Rendering a config value inside an f-string, as Python str() does. -/
def PyVal.fstr : PyVal → String
  | .vnone => "None"
  | .vstr s => s

/-- The config dictionary passed to publish_extension. -/
abbrev Config := List (String × PyVal)

/-- Python exceptions raised by the pipeline. -/
inductive PyExc where
  | valueError (msg : String)
  | fileNotFoundError (msg : String)
  | keyError (key : String)
  | exception (msg : String)
deriving DecidableEq, Repr

/-- The message text used when the exception is interpolated into an
f-string, as in print of "Build failed: " followed by the exception. -/
def PyExc.msg : PyExc → String
  | .valueError m => m
  | .fileNotFoundError m => m
  | .keyError k => k
  | .exception m => m

/-- Python dict.get(key, default): the value stored under the key, or the
default when the key is absent. -/
def dictGet (c : Config) (k : String) (dflt : PyVal) : PyVal :=
  match c.lookup k with
  | some v => v
  | none => dflt

/-- Python dict indexing config[key]: the stored value, or a KeyError when
the key is absent. -/
def dictIndex (c : Config) (k : String) : Except PyExc PyVal :=
  match c.lookup k with
  | some v => .ok v
  | none => .error (.keyError k)

/-- The HTTP response returned by requests.post: its status_code, its text
body, and the value of response.json(). -/
structure Response where
  status_code : Nat
  text : String
  json : String
deriving DecidableEq, Repr

/-- The external world during one call of publish_extension: whether
build_extension raises (and which exception), which files exist on disk
after the build, and the HTTP response that requests.post returns for a
given url, uploaded file path and Authorization header. -/
structure Env where
  buildExc : Option PyExc
  fileExists : String → Bool
  post : String → String → String → Response

/-- The four pipeline stages of publish_extension, in their source order:
run build_extension, check that index.js exists, call
upload_file_to_raycast, check the response status code. -/
inductive Stage where
  | build
  | checkArtifact
  | upload
  | checkStatus
deriving DecidableEq, Repr

/-- How a call of publish_extension ends: an exception propagates to the
caller, the bare return statement yields None, or a JSON body is returned. -/
inductive PublishOutcome where
  | raised (e : PyExc)
  | returnedNone
  | returned (json : String)
deriving DecidableEq, Repr

/-- Everything observable about one call of publish_extension: the outcome,
the stages that ran in order, the printed lines, the upload response if the
upload happened, and the config dictionary as it stands after the call. -/
structure PublishRun where
  outcome : PublishOutcome
  events : List Stage
  printed : List String
  response? : Option Response
  finalConfig : Config
deriving Repr

/-- upload_file_to_raycast(file_path, app_id, version, api_key) from
src/solution.py lines 280-286: build the url by interpolating app_id and
version, open the file (a missing file raises FileNotFoundError), post it
with the Bearer header, and return the response. -/
def upload_file_to_raycast (env : Env) (file_path : String)
    (app_id version api_key : PyVal) : Except PyExc Response :=
  let url := "https://go.raycast.com/api/extensions/" ++ app_id.fstr ++ "/"
      ++ version.fstr
  if env.fileExists file_path then
    .ok (env.post url file_path ("Bearer " ++ api_key.fstr))
  else
    .error (.fileNotFoundError ("No such file or directory: " ++ file_path))

/-- publish_extension(config) from src/solution.py lines 246-269:
read api_key with config.get, raise ValueError when it is None; run
build_extension inside try/except, printing and returning None on any
exception; raise FileNotFoundError when index.js does not exist; call
upload_file_to_raycast with config indexing for app_id and version; return
response.json() when the status code is 200, otherwise raise Exception. -/
def publish_extension (env : Env) (config : Config) : PublishRun :=
  let api_key := dictGet config "api_key" PyVal.vnone
  if api_key = PyVal.vnone then
    { outcome := .raised (.valueError "API key not specified in config."),
      events := [], printed := [], response? := none, finalConfig := config }
  else
    match env.buildExc with
    | some e =>
        { outcome := .returnedNone, events := [.build],
          printed := ["Build failed: " ++ e.msg], response? := none,
          finalConfig := config }
    | none =>
        if env.fileExists "index.js" = false then
          { outcome := .raised (.fileNotFoundError
              "index.js not found in the extension directory."),
            events := [.build, .checkArtifact], printed := [],
            response? := none, finalConfig := config }
        else
          match dictIndex config "app_id" with
          | .error e =>
              { outcome := .raised e, events := [.build, .checkArtifact],
                printed := [], response? := none, finalConfig := config }
          | .ok app_id =>
              match dictIndex config "version" with
              | .error e =>
                  { outcome := .raised e, events := [.build, .checkArtifact],
                    printed := [], response? := none, finalConfig := config }
              | .ok version =>
                  match upload_file_to_raycast env "index.js" app_id version
                      api_key with
                  | .error e =>
                      { outcome := .raised e,
                        events := [.build, .checkArtifact, .upload],
                        printed := [], response? := none,
                        finalConfig := config }
                  | .ok resp =>
                      { outcome :=
                          if resp.status_code = 200 then .returned resp.json
                          else .raised (.exception
                            ("Upload failed with status code "
                              ++ toString resp.status_code)),
                        events := [.build, .checkArtifact, .upload,
                          .checkStatus],
                        printed := [], response? := some resp,
                        finalConfig := config }

/-- Modelled from the spec: the six action identifiers of section 3; the
action dispatcher and session controller have no code under src. -/
inductive Action where
  | StartRecording
  | StopRecording
  | PauseRecording
  | ResumeRecording
  | SwitchMic
  | SwitchCamera
deriving DecidableEq, Repr

/-- Modelled from the spec: the three session states of section 4.2. -/
inductive SessionState where
  | Idle
  | Recording
  | Paused
deriving DecidableEq, Repr

/-- Modelled from the spec: the error taxonomy of section 7 for the session
controller; AlreadyRecording, NotRecording and NotPaused are the
IllegalTransition variants, NoDeviceAvailable is its own category. -/
inductive StepError where
  | AlreadyRecording
  | NotRecording
  | NotPaused
  | NoDeviceAvailable
deriving DecidableEq, Repr

/-- Whether a StepError is one of the IllegalTransition variants of the
error taxonomy in section 7 of the spec. -/
def StepError.isIllegalTransition : StepError → Bool
  | .AlreadyRecording => true
  | .NotRecording => true
  | .NotPaused => true
  | .NoDeviceAvailable => false

/-- Modelled from the spec: the session controller state of sections 3 and
4.2, the session state plus an ordered device list and cursor per device
kind. -/
structure Controller where
  state : SessionState
  mics : List String
  micCursor : Nat
  cams : List String
  camCursor : Nat
deriving DecidableEq, Repr

/-- Modelled from the spec: advancing a device cursor, wrapping to the
first entry at the end, failing when the list has zero or one entries. -/
def advanceCursor (len cursor : Nat) : Option Nat :=
  if len ≤ 1 then none else some ((cursor + 1) % len)

/-- Modelled from the spec: the transition table of section 4.2.  A failed
precondition leaves the controller unchanged (the error is returned with
the original controller); a success returns the updated controller. -/
def execute (c : Controller) (a : Action) : Except StepError Unit × Controller :=
  match a with
  | .StartRecording =>
      match c.state with
      | .Idle => (.ok (), { c with state := .Recording })
      | _ => (.error .AlreadyRecording, c)
  | .StopRecording =>
      match c.state with
      | .Idle => (.error .NotRecording, c)
      | _ => (.ok (), { c with state := .Idle })
  | .PauseRecording =>
      match c.state with
      | .Recording => (.ok (), { c with state := .Paused })
      | _ => (.error .NotRecording, c)
  | .ResumeRecording =>
      match c.state with
      | .Paused => (.ok (), { c with state := .Recording })
      | _ => (.error .NotPaused, c)
  | .SwitchMic =>
      match advanceCursor c.mics.length c.micCursor with
      | some i => (.ok (), { c with micCursor := i })
      | none => (.error .NoDeviceAvailable, c)
  | .SwitchCamera =>
      match advanceCursor c.cams.length c.camCursor with
      | some i => (.ok (), { c with camCursor := i })
      | none => (.error .NoDeviceAvailable, c)

/-- Modelled from the spec: the list of all six actions. -/
def allActions : List Action :=
  [.StartRecording, .StopRecording, .PauseRecording, .ResumeRecording,
   .SwitchMic, .SwitchCamera]

/-- Modelled from the spec: the action registry of section 4.1, mapping
each action to its canonical URL under the fixed scheme; the URL for
StartRecording is the one named in the concrete scenario of section 8. -/
def registry_url_for : Action → String
  | .StartRecording => "cap://start-recording"
  | .StopRecording => "cap://stop-recording"
  | .PauseRecording => "cap://pause-recording"
  | .ResumeRecording => "cap://resume-recording"
  | .SwitchMic => "cap://switch-mic"
  | .SwitchCamera => "cap://switch-camera"

/-- Modelled from the spec: resolve(url) of section 4.1, an exact,
case-sensitive string match of the url against the registered URLs,
returning the matching action or none. -/
def resolve (url : String) : Option Action :=
  allActions.find? (fun a => registry_url_for a == url)

/-- The response that the single requests.post call of a run receives, once
both dict lookups succeeded with values a and v. -/
def uploadResp (env : Env) (config : Config) (a v : PyVal) : Response :=
  env.post
    ("https://go.raycast.com/api/extensions/" ++ a.fstr ++ "/" ++ v.fstr)
    "index.js"
    ("Bearer " ++ (dictGet config "api_key" PyVal.vnone).fstr)

/-- Case lemma: api_key missing or None. -/
theorem publish_no_key (env : Env) (config : Config)
    (h1 : dictGet config "api_key" PyVal.vnone = PyVal.vnone) :
    publish_extension env config =
      { outcome := .raised (.valueError "API key not specified in config."),
        events := [], printed := [], response? := none,
        finalConfig := config } := by
  unfold publish_extension
  simp [h1]

/-- Case lemma: api_key present, build_extension raises. -/
theorem publish_build_fail (env : Env) (config : Config) (e : PyExc)
    (h1 : dictGet config "api_key" PyVal.vnone ≠ PyVal.vnone)
    (h2 : env.buildExc = some e) :
    publish_extension env config =
      { outcome := .returnedNone, events := [.build],
        printed := ["Build failed: " ++ e.msg], response? := none,
        finalConfig := config } := by
  unfold publish_extension
  simp [h1, h2]

/-- Case lemma: build succeeds, index.js missing. -/
theorem publish_no_file (env : Env) (config : Config)
    (h1 : dictGet config "api_key" PyVal.vnone ≠ PyVal.vnone)
    (h2 : env.buildExc = none)
    (h3 : env.fileExists "index.js" = false) :
    publish_extension env config =
      { outcome := .raised (.fileNotFoundError
          "index.js not found in the extension directory."),
        events := [.build, .checkArtifact], printed := [],
        response? := none, finalConfig := config } := by
  unfold publish_extension
  simp [h1, h2, h3]

/-- Case lemma: build succeeds, index.js present, app_id lookup raises. -/
theorem publish_no_appid (env : Env) (config : Config) (e : PyExc)
    (h1 : dictGet config "api_key" PyVal.vnone ≠ PyVal.vnone)
    (h2 : env.buildExc = none)
    (h3 : env.fileExists "index.js" = true)
    (h4 : dictIndex config "app_id" = .error e) :
    publish_extension env config =
      { outcome := .raised e, events := [.build, .checkArtifact],
        printed := [], response? := none, finalConfig := config } := by
  unfold publish_extension
  simp [h1, h2, h3, h4]

/-- Case lemma: build succeeds, index.js present, version lookup raises. -/
theorem publish_no_version (env : Env) (config : Config) (a : PyVal)
    (e : PyExc)
    (h1 : dictGet config "api_key" PyVal.vnone ≠ PyVal.vnone)
    (h2 : env.buildExc = none)
    (h3 : env.fileExists "index.js" = true)
    (h4 : dictIndex config "app_id" = .ok a)
    (h5 : dictIndex config "version" = .error e) :
    publish_extension env config =
      { outcome := .raised e, events := [.build, .checkArtifact],
        printed := [], response? := none, finalConfig := config } := by
  unfold publish_extension
  simp [h1, h2, h3, h4, h5]

/-- Case lemma: all checks up to the upload pass, so the upload runs and the
status check decides the outcome. -/
theorem publish_upload (env : Env) (config : Config) (a v : PyVal)
    (h1 : dictGet config "api_key" PyVal.vnone ≠ PyVal.vnone)
    (h2 : env.buildExc = none)
    (h3 : env.fileExists "index.js" = true)
    (h4 : dictIndex config "app_id" = .ok a)
    (h5 : dictIndex config "version" = .ok v) :
    publish_extension env config =
      { outcome :=
          if (uploadResp env config a v).status_code = 200 then
            .returned (uploadResp env config a v).json
          else
            .raised (.exception ("Upload failed with status code "
              ++ toString (uploadResp env config a v).status_code)),
        events := [.build, .checkArtifact, .upload, .checkStatus],
        printed := [], response? := some (uploadResp env config a v),
        finalConfig := config } := by
  unfold publish_extension upload_file_to_raycast uploadResp
  simp [h1, h2, h3, h4, h5]

/-- A dict indexing failure is always a KeyError naming the key. -/
theorem dictIndex_error (c : Config) (k : String) (e : PyExc)
    (h : dictIndex c k = .error e) : e = PyExc.keyError k := by
  unfold dictIndex at h
  cases hl : c.lookup k with
  | some v => rw [hl] at h; exact Except.noConfusion h
  | none =>
      rw [hl] at h
      injection h with h2
      exact h2.symm

/-- A sample successful upload response. -/
def okResponse : Response :=
  { status_code := 200, text := "ok", json := "artifact-handle" }

/-- A sample rejected upload response. -/
def badResponse : Response :=
  { status_code := 500, text := "server error", json := "unused" }

/-- A sample environment where every stage succeeds. -/
def envOk : Env :=
  { buildExc := none, fileExists := fun _ => true,
    post := fun _ _ _ => okResponse }

/-- A sample environment where build_extension raises. -/
def envBuildFail : Env :=
  { buildExc := some (.exception "boom"), fileExists := fun _ => true,
    post := fun _ _ _ => okResponse }

/-- A sample environment where the build succeeds but index.js is absent. -/
def envNoFile : Env :=
  { buildExc := none, fileExists := fun _ => false,
    post := fun _ _ _ => okResponse }

/-- A sample environment where the upload is rejected with status 500. -/
def envBadStatus : Env :=
  { buildExc := none, fileExists := fun _ => true,
    post := fun _ _ _ => badResponse }

/-- A sample config holding api_key, app_id and version. -/
def confOk : Config :=
  [("api_key", .vstr "secret"), ("app_id", .vstr "my-app"),
   ("version", .vstr "1.2.3")]

/-- A sample config with no api_key entry. -/
def confNoKey : Config :=
  [("app_id", .vstr "my-app"), ("version", .vstr "1.2.3")]

/-- C1: for every environment and config, the stages publish_extension
performs form an initial segment of the fixed order build, artifact-check,
upload, status-check: no later stage ever runs before an earlier one. -/
theorem publish_stage_order (env : Env) (config : Config) :
    (publish_extension env config).events ∈
      ([[], [Stage.build], [Stage.build, Stage.checkArtifact],
        [Stage.build, Stage.checkArtifact, Stage.upload],
        [Stage.build, Stage.checkArtifact, Stage.upload, Stage.checkStatus]] :
        List (List Stage)) := by
  by_cases h1 : dictGet config "api_key" PyVal.vnone = PyVal.vnone
  · rw [publish_no_key env config h1]; simp
  · cases h2 : env.buildExc with
    | some e => rw [publish_build_fail env config e h1 h2]; simp
    | none =>
        cases h3 : env.fileExists "index.js" with
        | false => rw [publish_no_file env config h1 h2 h3]; simp
        | true =>
            cases h4 : dictIndex config "app_id" with
            | error e => rw [publish_no_appid env config e h1 h2 h3 h4]; simp
            | ok a =>
                cases h5 : dictIndex config "version" with
                | error e =>
                    rw [publish_no_version env config a e h1 h2 h3 h4 h5]
                    simp
                | ok v =>
                    rw [publish_upload env config a v h1 h2 h3 h4 h5]
                    simp

/-- C8: for every config holding an api_key, when build_extension raises
any exception, publish_extension catches it, prints a build-failure
message, and returns None; the failure is not propagated to the caller as
an exception or error value. -/
theorem build_exception_swallowed (env : Env) (config : Config) (e : PyExc)
    (h1 : dictGet config "api_key" PyVal.vnone ≠ PyVal.vnone)
    (h2 : env.buildExc = some e) :
    (publish_extension env config).outcome = PublishOutcome.returnedNone ∧
    (publish_extension env config).printed = ["Build failed: " ++ e.msg] ∧
    ∀ exc, (publish_extension env config).outcome ≠
      PublishOutcome.raised exc := by
  rw [publish_build_fail env config e h1 h2]
  exact ⟨rfl, rfl, fun exc h => PublishOutcome.noConfusion h⟩

/-- Witness for C8 at a concrete environment and config. -/
theorem build_exception_swallowed_witness :
    (publish_extension envBuildFail confOk).outcome =
      PublishOutcome.returnedNone ∧
    (publish_extension envBuildFail confOk).printed =
      ["Build failed: boom"] :=
  ⟨(build_exception_swallowed envBuildFail confOk (PyExc.exception "boom")
      (by decide) rfl).1,
   (build_exception_swallowed envBuildFail confOk (PyExc.exception "boom")
      (by decide) rfl).2.1⟩

/-- C9: when the key api_key is absent from the config or maps to None,
publish_extension raises ValueError before any pipeline stage runs: no
stage is performed, nothing is printed and no upload response exists. -/
theorem missing_api_key_raises (env : Env) (config : Config)
    (h : config.lookup "api_key" = none ∨
      config.lookup "api_key" = some PyVal.vnone) :
    (publish_extension env config).outcome =
      PublishOutcome.raised
        (PyExc.valueError "API key not specified in config.") ∧
    (publish_extension env config).events = [] ∧
    (publish_extension env config).printed = [] ∧
    (publish_extension env config).response? = none := by
  have h1 : dictGet config "api_key" PyVal.vnone = PyVal.vnone := by
    unfold dictGet
    rcases h with h | h <;> rw [h]
  rw [publish_no_key env config h1]
  exact ⟨rfl, rfl, rfl, rfl⟩

/-- Witness for C9 at a concrete environment and config. -/
theorem missing_api_key_raises_witness :
    (publish_extension envOk confNoKey).events = [] :=
  (missing_api_key_raises envOk confNoKey (Or.inl (by decide))).2.1

/-- C10: publish_extension never mutates the config dictionary: after any
call, successful or failing, the config holds exactly the entries it held
before. -/
theorem publish_preserves_config (env : Env) (config : Config) :
    (publish_extension env config).finalConfig = config := by
  by_cases h1 : dictGet config "api_key" PyVal.vnone = PyVal.vnone
  · rw [publish_no_key env config h1]
  · cases h2 : env.buildExc with
    | some e => rw [publish_build_fail env config e h1 h2]
    | none =>
        cases h3 : env.fileExists "index.js" with
        | false => rw [publish_no_file env config h1 h2 h3]
        | true =>
            cases h4 : dictIndex config "app_id" with
            | error e => rw [publish_no_appid env config e h1 h2 h3 h4]
            | ok a =>
                cases h5 : dictIndex config "version" with
                | error e =>
                    rw [publish_no_version env config a e h1 h2 h3 h4 h5]
                | ok v =>
                    rw [publish_upload env config a v h1 h2 h3 h4 h5]

/-- C2: each failing stage short-circuits the remaining stages: a build
exception skips both the artifact check and the upload; a missing index.js
skips the upload; and when every upload response the environment can give
has a status other than 200, no response body is ever returned as a
success result. -/
theorem publish_short_circuit (env : Env) (config : Config) :
    (env.buildExc.isSome = true →
      Stage.checkArtifact ∉ (publish_extension env config).events ∧
      Stage.upload ∉ (publish_extension env config).events) ∧
    (env.fileExists "index.js" = false →
      Stage.upload ∉ (publish_extension env config).events) ∧
    ((∀ url fp auth, (env.post url fp auth).status_code ≠ 200) →
      ∀ j, (publish_extension env config).outcome ≠
        PublishOutcome.returned j) := by
  by_cases h1 : dictGet config "api_key" PyVal.vnone = PyVal.vnone
  · rw [publish_no_key env config h1]
    exact ⟨fun _ => ⟨by simp, by simp⟩, fun _ => by simp,
      fun _ j h => PublishOutcome.noConfusion h⟩
  · cases h2 : env.buildExc with
    | some e =>
        rw [publish_build_fail env config e h1 h2]
        exact ⟨fun _ => ⟨by simp, by simp⟩, fun _ => by simp,
          fun _ j h => PublishOutcome.noConfusion h⟩
    | none =>
        cases h3 : env.fileExists "index.js" with
        | false =>
            rw [publish_no_file env config h1 h2 h3]
            exact ⟨fun hb => by simp at hb, fun _ => by simp,
              fun _ j h => PublishOutcome.noConfusion h⟩
        | true =>
            cases h4 : dictIndex config "app_id" with
            | error e =>
                rw [publish_no_appid env config e h1 h2 h3 h4]
                exact ⟨fun hb => by simp at hb,
                  fun hf => Bool.noConfusion hf,
                  fun _ j h => PublishOutcome.noConfusion h⟩
            | ok a =>
                cases h5 : dictIndex config "version" with
                | error e =>
                    rw [publish_no_version env config a e h1 h2 h3 h4 h5]
                    exact ⟨fun hb => by simp at hb,
                      fun hf => Bool.noConfusion hf,
                      fun _ j h => PublishOutcome.noConfusion h⟩
                | ok v =>
                    rw [publish_upload env config a v h1 h2 h3 h4 h5]
                    refine ⟨fun hb => by simp at hb,
                      fun hf => Bool.noConfusion hf, fun hp j h => ?_⟩
                    have hne : (uploadResp env config a v).status_code ≠ 200 :=
                      hp _ _ _
                    rw [if_neg hne] at h
                    exact PublishOutcome.noConfusion h

/-- C4: whenever the build stage ran and succeeded, index.js exists, and
the upload produced a response whose status code is 200, publish_extension
returns response.json(), the parsed body of that upload response. -/
theorem publish_success_returns_json (env : Env) (config : Config)
    (resp : Response)
    (_hb : Stage.build ∈ (publish_extension env config).events)
    (h2 : env.buildExc = none)
    (h3 : env.fileExists "index.js" = true)
    (hr : (publish_extension env config).response? = some resp)
    (hs : resp.status_code = 200) :
    (publish_extension env config).outcome =
      PublishOutcome.returned resp.json := by
  by_cases h1 : dictGet config "api_key" PyVal.vnone = PyVal.vnone
  · rw [publish_no_key env config h1] at hr
    simp at hr
  · cases h4 : dictIndex config "app_id" with
    | error e =>
        rw [publish_no_appid env config e h1 h2 h3 h4] at hr
        simp at hr
    | ok a =>
        cases h5 : dictIndex config "version" with
        | error e =>
            rw [publish_no_version env config a e h1 h2 h3 h4 h5] at hr
            simp at hr
        | ok v =>
            rw [publish_upload env config a v h1 h2 h3 h4 h5] at hr ⊢
            simp only [Option.some.injEq] at hr
            simp [hr, hs]

/-- Witness for C4 at a concrete environment and config. -/
theorem publish_success_returns_json_witness :
    (publish_extension envOk confOk).outcome =
      PublishOutcome.returned "artifact-handle" :=
  publish_success_returns_json envOk confOk okResponse (by decide) rfl rfl
    rfl rfl

/-- C5: after a successful build (api_key present and build_extension did
not raise), publish_extension raises FileNotFoundError exactly when
index.js does not exist, and in that case the upload stage never runs. -/
theorem missing_artifact_characterization (env : Env) (config : Config)
    (h1 : dictGet config "api_key" PyVal.vnone ≠ PyVal.vnone)
    (h2 : env.buildExc = none) :
    ((∃ m, (publish_extension env config).outcome =
        PublishOutcome.raised (PyExc.fileNotFoundError m)) ↔
      env.fileExists "index.js" = false) ∧
    (env.fileExists "index.js" = false →
      Stage.upload ∉ (publish_extension env config).events) := by
  cases h3 : env.fileExists "index.js" with
  | false =>
      rw [publish_no_file env config h1 h2 h3]
      refine ⟨⟨fun _ => rfl, fun _ => ⟨_, rfl⟩⟩, fun _ => by simp⟩
  | true =>
      have hnot : ∀ m, (publish_extension env config).outcome ≠
          PublishOutcome.raised (PyExc.fileNotFoundError m) := by
        intro m hm
        cases h4 : dictIndex config "app_id" with
        | error e =>
            have he : e = PyExc.keyError "app_id" :=
              dictIndex_error config "app_id" e h4
            rw [publish_no_appid env config e h1 h2 h3 h4, he] at hm
            simp at hm
        | ok a =>
            cases h5 : dictIndex config "version" with
            | error e =>
                have he : e = PyExc.keyError "version" :=
                  dictIndex_error config "version" e h5
                rw [publish_no_version env config a e h1 h2 h3 h4 h5, he]
                  at hm
                simp at hm
            | ok v =>
                rw [publish_upload env config a v h1 h2 h3 h4 h5] at hm
                by_cases hs : (uploadResp env config a v).status_code = 200
                · rw [if_pos hs] at hm
                  exact PublishOutcome.noConfusion hm
                · rw [if_neg hs] at hm
                  simp at hm
      refine ⟨⟨fun hex => ?_, fun hf => Bool.noConfusion hf⟩,
        fun hf => Bool.noConfusion hf⟩
      rcases hex with ⟨m, hm⟩
      exact absurd hm (hnot m)

/-- Witness for C5 at a concrete environment and config. -/
theorem missing_artifact_characterization_witness :
    Stage.upload ∉ (publish_extension envNoFile confOk).events :=
  (missing_artifact_characterization envNoFile confOk (by decide) rfl).2 rfl

/-- C3 counterexample: with an api_key present and a failing build, the
call ends by returning None; no error value is raised or returned for the
build failure, so the build failure does not surface its own error to the
caller. -/
theorem build_fail_no_error_result :
    (publish_extension envBuildFail confOk).outcome =
      PublishOutcome.returnedNone ∧
    (publish_extension envBuildFail confOk).printed =
      ["Build failed: boom"] :=
  ⟨rfl, rfl⟩

/-- C3 (amended): with an api_key present, a missing artifact and a
rejected upload each raise their own distinct error (FileNotFoundError,
and a generic Exception naming the status code); a build failure, however,
surfaces no error value: the call prints a message and returns None. -/
theorem publish_error_surfacing (env : Env) (config : Config)
    (h1 : dictGet config "api_key" PyVal.vnone ≠ PyVal.vnone) :
    (∀ e, env.buildExc = some e →
      (publish_extension env config).outcome =
        PublishOutcome.returnedNone ∧
      (publish_extension env config).printed =
        ["Build failed: " ++ e.msg]) ∧
    (env.buildExc = none → env.fileExists "index.js" = false →
      (publish_extension env config).outcome =
        PublishOutcome.raised (PyExc.fileNotFoundError
          "index.js not found in the extension directory.")) ∧
    (∀ resp, env.buildExc = none → env.fileExists "index.js" = true →
      (publish_extension env config).response? = some resp →
      resp.status_code ≠ 200 →
      (publish_extension env config).outcome =
        PublishOutcome.raised (PyExc.exception
          ("Upload failed with status code "
            ++ toString resp.status_code))) := by
  refine ⟨?_, ?_, ?_⟩
  · intro e h2
    rw [publish_build_fail env config e h1 h2]
    exact ⟨rfl, rfl⟩
  · intro h2 h3
    rw [publish_no_file env config h1 h2 h3]
  · intro resp h2 h3 hr hs
    cases h4 : dictIndex config "app_id" with
    | error e =>
        rw [publish_no_appid env config e h1 h2 h3 h4] at hr
        simp at hr
    | ok a =>
        cases h5 : dictIndex config "version" with
        | error e =>
            rw [publish_no_version env config a e h1 h2 h3 h4 h5] at hr
            simp at hr
        | ok v =>
            rw [publish_upload env config a v h1 h2 h3 h4 h5] at hr ⊢
            simp only [Option.some.injEq] at hr
            rw [hr]
            simp [hs]

/-- Witness for the amended C3, exercising all three failure shapes at
concrete environments. -/
theorem publish_error_surfacing_witness :
    (publish_extension envBuildFail confOk).printed =
      ["Build failed: boom"] ∧
    (publish_extension envNoFile confOk).outcome =
      PublishOutcome.raised (PyExc.fileNotFoundError
        "index.js not found in the extension directory.") ∧
    (publish_extension envBadStatus confOk).outcome =
      PublishOutcome.raised
        (PyExc.exception "Upload failed with status code 500") :=
  ⟨((publish_error_surfacing envBuildFail confOk (by decide)).1
      (PyExc.exception "boom") rfl).2,
   (publish_error_surfacing envNoFile confOk (by decide)).2.1 rfl rfl,
   (publish_error_surfacing envBadStatus confOk (by decide)).2.2
      badResponse rfl rfl rfl (by decide)⟩

/-- C6: from Idle, StartRecording succeeds, moving the state to Recording;
StopRecording, PauseRecording and ResumeRecording each return an
IllegalTransition-class error and leave the controller, hence its state,
unchanged at Idle. -/
theorem idle_transitions (c : Controller)
    (h : c.state = SessionState.Idle) :
    (execute c Action.StartRecording).1 = Except.ok () ∧
    (execute c Action.StartRecording).2.state = SessionState.Recording ∧
    execute c Action.StopRecording =
      (Except.error StepError.NotRecording, c) ∧
    execute c Action.PauseRecording =
      (Except.error StepError.NotRecording, c) ∧
    execute c Action.ResumeRecording =
      (Except.error StepError.NotPaused, c) ∧
    StepError.NotRecording.isIllegalTransition = true ∧
    StepError.NotPaused.isIllegalTransition = true := by
  refine ⟨?_, ?_, ?_, ?_, ?_, rfl, rfl⟩ <;> simp [execute, h]

/-- A concrete controller sitting in the Idle state. -/
def idleController : Controller :=
  { state := .Idle, mics := ["mic-a", "mic-b"], micCursor := 0,
    cams := ["cam-a"], camCursor := 0 }

/-- Witness for C6 at a concrete Idle controller. -/
theorem idle_transitions_witness :
    (execute idleController Action.StartRecording).2.state =
      SessionState.Recording ∧
    execute idleController Action.StopRecording =
      (Except.error StepError.NotRecording, idleController) :=
  ⟨(idle_transitions idleController rfl).2.1,
   (idle_transitions idleController rfl).2.2.1⟩

/-- C7: resolving the registered URL of any action yields that action
back; resolve performs an exact, case-sensitive string match against the
registry. -/
theorem resolve_registry_roundtrip (a : Action) :
    resolve (registry_url_for a) = some a := by
  cases a <;> rfl

end Cap
